import Mathlib

/-!
Shallow embedding of the comparable-discovery scoring engine of the
MultiCounty-Industrial-Property-Analysis repository
(`backend/agents/comparable_discovery_agent.py` together with the data model in
`backend/models/property_models.py`), and proofs of the frozen claims about it.

Modelling conventions:
* Python floats are modelled as rationals (`ℚ`); all arithmetic in the scoring
  code is elementary (+, -, *, /, min, max, abs), so the rational model is exact.
* Python `Optional[...]` fields are `Option` values.  Python truthiness tests
  (`if not x:`) treat `None`, `0`, `0.0` and `""` as falsy; the helpers below
  reproduce that.
* Python's `str.upper()` / `str.lower()` on the ASCII codes that occur here are
  modelled by mapping `Char.toUpper` / `Char.toLower` over the character list.
* The haversine branch of `calculate_distance` uses trigonometric functions,
  which have no exact rational model; it is taken as an uninterpreted function
  parameter `hav` threaded through the pipeline (no claim depends on its value).
* The OpenAI chat call of `ai_score_candidates` is modelled by an oracle
  `ai : List PropertyResponse → Option (List ScoreData)`; `none` models a raised
  exception or a malformed (unparsable) JSON response, in which case the code
  falls back to `traditional_score_candidates` on the affected batch.
* Python `list.sort(key=..., reverse=True)` is a stable descending sort; it is
  modelled by `List.mergeSort` (also stable) with the corresponding comparator.
-/

namespace PropertyAnalysis

/-- The parcel record (`PropertyResponse` in `property_models.py`), restricted to
the fields read by the comparable-discovery engine; the remaining metadata
fields (`zip_code`, `property_type`, `market_value`, `sale_date`, `data_source`,
`last_updated`, `is_verified`, `outlier_flags`) are never consulted by the
scoring code and are omitted. -/
structure PropertyResponse where
  id : String
  county_id : String
  address : String
  city : String
  state : String
  zoning_code : Option String := none
  building_area : Option ℚ := none
  lot_area : Option ℚ := none
  year_built : Option ℤ := none
  assessed_value : Option ℚ := none
  sale_price : Option ℚ := none
  latitude : Option ℚ := none
  longitude : Option ℚ := none
  quality_score : Option ℚ := none
deriving DecidableEq, Repr

/-- Configuration weights and tolerances (`SimilarityFactors` in
`property_models.py`), with the defaults of the source. -/
structure SimilarityFactors where
  sale_price_weight : ℚ := 35/100
  size_weight : ℚ := 25/100
  value_weight : ℚ := 20/100
  location_weight : ℚ := 10/100
  age_weight : ℚ := 5/100
  zoning_weight : ℚ := 5/100
  max_distance_miles : ℚ := 10
  size_tolerance_percent : ℚ := 1/2
  age_tolerance_years : ℤ := 10
  value_tolerance_percent : ℚ := 3/10
deriving DecidableEq, Repr

/-- The default configuration: the agent's `__init__` always builds
`SimilarityFactors()` with no overrides. -/
def defaultFactors : SimilarityFactors := {}

/-- One ranked comparable (`ComparableProperty` in `property_models.py`).
`similarity_factors` is a Python `dict[str, float]`, modelled as an insertion
ordered association list.  `distance_miles` is declared `Optional` in the
Pydantic model but every construction site passes a number, so it is a plain
rational here. -/
structure ComparableProperty where
  property : PropertyResponse
  similarity_score : ℚ
  distance_miles : ℚ
  similarity_factors : List (String × ℚ)
  confidence_score : ℚ
deriving DecidableEq, Repr

/-- One entry of the JSON array returned by the AI scoring service:
`{"id": ..., "similarity_score": ..., "confidence_score": ..., "reasoning": ...}`
(the `reasoning` string is extracted by the source but never used). -/
structure ScoreData where
  id : String
  similarity_score : ℚ
  confidence_score : ℚ
deriving DecidableEq, Repr

/-- Python truthiness of an optional number: `None`, `0` and `0.0` are falsy. -/
def qTruthy : Option ℚ → Bool
  | none => false
  | some x => x != 0

/-- Python truthiness of an optional integer. -/
def zTruthy : Option ℤ → Bool
  | none => false
  | some x => x != 0

/-- Python truthiness of an optional string: `None` and `""` are falsy. -/
def sTruthy : Option String → Bool
  | none => false
  | some s => s != ""

/-- `target.quality_score or 0.5`: Python `or` returns `0.5` when the
quality score is `None` or `0.0`. -/
def qualityOrHalf : Option ℚ → ℚ
  | none => 1/2
  | some q => if q = 0 then 1/2 else q

/-- Uppercase a string ASCII-wise, as `str.upper()` does on the codes that
occur in zoning data, returned as a character list. -/
def upperChars (s : String) : List Char :=
  s.toList.map Char.toUpper

/-- Lowercase a string ASCII-wise, as `str.lower()` does on city names,
returned as a character list. -/
def lowerChars (s : String) : List Char :=
  s.toList.map Char.toLower

/-- `needle` occurs at the head of `hay` (helper for the substring test of the
Python `in` operator on strings). -/
def matchesHere : List Char → List Char → Bool
  | [], _ => true
  | _ :: _, [] => false
  | a :: as, b :: bs => a == b && matchesHere as bs

/-- The Python substring test `needle in hay`. -/
def containsSub (needle : List Char) : List Char → Bool
  | [] => needle.isEmpty
  | b :: bs => matchesHere needle (b :: bs) || containsSub needle bs

/-- `calculate_location_similarity`: 1.0 for the same city (case-insensitive),
0.8 for the same county, 0.3 otherwise. -/
def calculate_location_similarity (target candidate : PropertyResponse) : ℚ :=
  if lowerChars target.city = lowerChars candidate.city then 1
  else if target.county_id = candidate.county_id then 8/10
  else 3/10

/-- `calculate_size_similarity`: ratio of smaller to larger building area,
halved below ratio 0.5; 0.0 when either area is missing or zero (Python
truthiness) or the larger area is zero. -/
def calculate_size_similarity (target candidate : PropertyResponse) : ℚ :=
  if ¬ qTruthy target.building_area ∨ ¬ qTruthy candidate.building_area then 0
  else
    let ta := target.building_area.getD 0
    let ca := candidate.building_area.getD 0
    let larger := max ta ca
    let smaller := min ta ca
    if larger = 0 then 0
    else
      let ratio := smaller / larger
      if (1:ℚ)/2 ≤ ratio then ratio
      else ratio * (1/2)

/-- `calculate_age_similarity`: linear decay to 0.5 within the configured
tolerance, steeper decay (floored at 0) beyond it; 0.5 when either year is
missing (or zero, by Python truthiness). -/
def calculate_age_similarity (f : SimilarityFactors)
    (target candidate : PropertyResponse) : ℚ :=
  if ¬ zTruthy target.year_built ∨ ¬ zTruthy candidate.year_built then 1/2
  else
    let age_diff : ℤ := |target.year_built.getD 0 - candidate.year_built.getD 0|
    let tolerance : ℤ := f.age_tolerance_years
    if age_diff ≤ tolerance then 1 - (age_diff : ℚ) / (tolerance : ℚ) * (1/2)
    else max 0 ((1:ℚ)/2 - ((age_diff : ℚ) - (tolerance : ℚ)) / ((tolerance : ℚ) * 2))

/-- The fixed industrial code set of `calculate_zoning_similarity`, as
character lists (the comparison happens after `.upper()`). -/
def industrial_codes : List (List Char) :=
  ["M1".toList, "M2".toList, "M3".toList, "I-1".toList, "I-2".toList,
   "I-3".toList, "I1".toList, "I2".toList, "I3".toList, "INDUSTRIAL".toList]

/-- `calculate_zoning_similarity`: 1.0 exact (case-insensitive) match, 0.8 when
both upper-cased codes are in the fixed industrial set, 0.7 on shared
INDUSTRIAL / MANUFACTURING / WAREHOUSE substrings, 0.3 otherwise; 0.5 when
either code is missing or empty. -/
def calculate_zoning_similarity (target candidate : PropertyResponse) : ℚ :=
  if ¬ sTruthy target.zoning_code ∨ ¬ sTruthy candidate.zoning_code then 1/2
  else
    let tz := upperChars (target.zoning_code.getD "")
    let cz := upperChars (candidate.zoning_code.getD "")
    if tz = cz then 1
    else if tz ∈ industrial_codes ∧ cz ∈ industrial_codes then 8/10
    else if containsSub "INDUSTRIAL".toList tz ∧ containsSub "INDUSTRIAL".toList cz then 7/10
    else if containsSub "MANUFACTURING".toList tz ∧ containsSub "MANUFACTURING".toList cz then 7/10
    else if containsSub "WAREHOUSE".toList tz ∧ containsSub "WAREHOUSE".toList cz then 7/10
    else 3/10

/-- `calculate_value_similarity`: 1.0 when the smaller/larger assessed-value
ratio is within the configured tolerance of 1, otherwise `max 0 ratio`; 0.5
when either value is missing or zero (Python truthiness); the `larger == 0`
branch of the source returns 0.0. -/
def calculate_value_similarity (f : SimilarityFactors)
    (target candidate : PropertyResponse) : ℚ :=
  if ¬ qTruthy target.assessed_value ∨ ¬ qTruthy candidate.assessed_value then 1/2
  else
    let tv := target.assessed_value.getD 0
    let cv := candidate.assessed_value.getD 0
    let larger := max tv cv
    let smaller := min tv cv
    if larger = 0 then 0
    else
      let ratio := smaller / larger
      if 1 - f.value_tolerance_percent ≤ ratio then 1
      else max 0 ratio

/-- `calculate_sale_price_similarity`: same shape as the assessed-value scorer
but over the last sale price, with the tolerance 0.3 hardcoded inline. -/
def calculate_sale_price_similarity (target candidate : PropertyResponse) : ℚ :=
  if ¬ qTruthy target.sale_price ∨ ¬ qTruthy candidate.sale_price then 1/2
  else
    let tv := target.sale_price.getD 0
    let cv := candidate.sale_price.getD 0
    let larger := max tv cv
    let smaller := min tv cv
    if larger = 0 then 0
    else
      let ratio := smaller / larger
      if 1 - (3:ℚ)/10 ≤ ratio then 1
      else max 0 ratio

/-- `calculate_distance`: city/county tier estimates when any coordinate is
missing or zero (Python truthiness), otherwise the haversine great-circle
distance.  The trigonometric haversine computation has no exact rational
model and is passed in as the uninterpreted function `hav`. -/
def calculate_distance (hav : ℚ → ℚ → ℚ → ℚ → ℚ)
    (target candidate : PropertyResponse) : ℚ :=
  if ¬ (qTruthy target.latitude ∧ qTruthy target.longitude ∧
        qTruthy candidate.latitude ∧ qTruthy candidate.longitude) then
    if lowerChars target.city = lowerChars candidate.city then 5
    else if target.county_id = candidate.county_id then 25
    else 100
  else
    hav (target.latitude.getD 0) (target.longitude.getD 0)
        (candidate.latitude.getD 0) (candidate.longitude.getD 0)

/-- `calculate_data_completeness`: populated essential and optional fields over
the total number of fields considered (Python truthiness decides "populated",
so empty strings and zero numbers count as absent). -/
def calculate_data_completeness (prop : PropertyResponse) : ℚ :=
  let essential_fields : List Bool :=
    [prop.address != "", prop.city != "", prop.state != "",
     qTruthy prop.building_area, sTruthy prop.zoning_code, prop.county_id != ""]
  let optional_fields : List Bool :=
    [zTruthy prop.year_built, qTruthy prop.assessed_value, qTruthy prop.latitude,
     qTruthy prop.longitude, qTruthy prop.lot_area]
  let total_fields : ℚ := (essential_fields.length + optional_fields.length : ℕ)
  let completed_fields : ℚ :=
    ((essential_fields ++ optional_fields).count true : ℕ)
  if 0 < total_fields then completed_fields / total_fields else 0

/-- `calculate_confidence_score`: 0.6 × mean completeness + 0.4 × mean quality
(quality defaulting to 0.5 when absent), capped above at 1.0 by `min`. -/
def calculate_confidence_score (target candidate : PropertyResponse) : ℚ :=
  let target_completeness := calculate_data_completeness target
  let candidate_completeness := calculate_data_completeness candidate
  let avg_completeness := (target_completeness + candidate_completeness) / 2
  let target_quality := qualityOrHalf target.quality_score
  let candidate_quality := qualityOrHalf candidate.quality_score
  let avg_quality := (target_quality + candidate_quality) / 2
  min 1 (avg_completeness * (6/10) + avg_quality * (4/10))

/-- `calculate_similarity`: the six factor scores, their weighted sum, the
six-entry per-factor breakdown dict, and the confidence score. -/
def calculate_similarity (f : SimilarityFactors)
    (target candidate : PropertyResponse) : ℚ × List (String × ℚ) × ℚ :=
  let location_score := calculate_location_similarity target candidate
  let size_score := calculate_size_similarity target candidate
  let age_score := calculate_age_similarity f target candidate
  let zoning_score := calculate_zoning_similarity target candidate
  let value_score := calculate_value_similarity f target candidate
  let sale_price_score := calculate_sale_price_similarity target candidate
  let similarity_score :=
    location_score * f.location_weight +
    size_score * f.size_weight +
    age_score * f.age_weight +
    zoning_score * f.zoning_weight +
    value_score * f.value_weight +
    sale_price_score * f.sale_price_weight
  let similarity_factors : List (String × ℚ) :=
    [("location", location_score), ("size", size_score), ("age", age_score),
     ("zoning", zoning_score), ("value", value_score),
     ("sale_price", sale_price_score)]
  let confidence_score := calculate_confidence_score target candidate
  (similarity_score, similarity_factors, confidence_score)

/-- `calculate_detailed_similarity_factors`: the five-entry per-factor
breakdown attached to AI-scored comparables (no sale-price entry). -/
def calculate_detailed_similarity_factors (f : SimilarityFactors)
    (target candidate : PropertyResponse) : List (String × ℚ) :=
  [("location", calculate_location_similarity target candidate),
   ("size", calculate_size_similarity target candidate),
   ("age", calculate_age_similarity f target candidate),
   ("zoning", calculate_zoning_similarity target candidate),
   ("value", calculate_value_similarity f target candidate)]

/-- The loop body of `traditional_score_candidates`: skip the target itself
(`continue`), score the candidate, and keep it only when the similarity
exceeds the minimum threshold 0.3. -/
def score_one_candidate (hav : ℚ → ℚ → ℚ → ℚ → ℚ) (f : SimilarityFactors)
    (target candidate : PropertyResponse) : Option ComparableProperty :=
  if candidate.id = target.id then none
  else
    let r := calculate_similarity f target candidate
    if (3:ℚ)/10 < r.1 then
      some { property := candidate
             similarity_score := r.1
             distance_miles := calculate_distance hav target candidate
             similarity_factors := r.2.1
             confidence_score := r.2.2 }
    else none

/-- `traditional_score_candidates`: deterministic scoring of every candidate,
skipping the target itself and keeping only those with similarity above 0.3. -/
def traditional_score_candidates (hav : ℚ → ℚ → ℚ → ℚ → ℚ) (f : SimilarityFactors)
    (target : PropertyResponse) (candidates : List PropertyResponse) :
    List ComparableProperty :=
  candidates.filterMap (score_one_candidate hav f target)

/-- The batch slicing `candidates[i:i+5]` of `ai_score_candidates`
(`batch_size = 5`). -/
def batchesOf5 : List PropertyResponse → List (List PropertyResponse)
  | [] => []
  | a :: rest => (a :: rest.take 4) :: batchesOf5 (rest.drop 4)
termination_by l => l.length
decreasing_by
  simp [List.length_drop]
  omega

/-- Scoring of a single batch inside `ai_score_candidates`: on a well-formed AI
response, keep each returned entry whose id matches a batch member and whose AI
similarity exceeds 0.3, attaching the locally computed distance and detailed
factor breakdown; on failure (`none`: raised exception or malformed JSON), fall
back to the deterministic scorer for the batch. -/
def ai_process_batch (hav : ℚ → ℚ → ℚ → ℚ → ℚ) (f : SimilarityFactors)
    (ai : List PropertyResponse → Option (List ScoreData))
    (target : PropertyResponse) (batch : List PropertyResponse) :
    List ComparableProperty :=
  match ai batch with
  | some ai_scores =>
      ai_scores.filterMap (fun score_data =>
        match batch.find? (fun c => c.id == score_data.id) with
        | some candidate =>
            if (3:ℚ)/10 < score_data.similarity_score then
              some { property := candidate
                     similarity_score := score_data.similarity_score
                     distance_miles := calculate_distance hav target candidate
                     similarity_factors :=
                       calculate_detailed_similarity_factors f target candidate
                     confidence_score := score_data.confidence_score }
            else none
        | none => none)
  | none => traditional_score_candidates hav f target batch

/-- `ai_score_candidates`: batch the candidates by five and process each batch
through the AI oracle with per-batch deterministic fallback. -/
def ai_score_candidates (hav : ℚ → ℚ → ℚ → ℚ → ℚ) (f : SimilarityFactors)
    (ai : List PropertyResponse → Option (List ScoreData))
    (target : PropertyResponse) (candidates : List PropertyResponse) :
    List ComparableProperty :=
  (batchesOf5 candidates).flatMap (ai_process_batch hav f ai target)

/-- The comparator of `scored_properties.sort(key=lambda x: x.similarity_score,
reverse=True)`: `a` may come before `b` when its score is at least `b`'s. -/
def simGE (a b : ComparableProperty) : Bool :=
  b.similarity_score ≤ a.similarity_score

/-- The stable descending sort on similarity scores used by
`find_comparables`. -/
def sortComparables (l : List ComparableProperty) : List ComparableProperty :=
  l.mergeSort simGE

/-- `find_comparables`: retrieve nothing on an empty candidate set; otherwise
score through the AI path when a credential is configured (`hasKey`) and the
deterministic path when not, sort descending by similarity and keep the top
`max_results` (the source default is 10). -/
def find_comparables (hav : ℚ → ℚ → ℚ → ℚ → ℚ) (f : SimilarityFactors)
    (ai : List PropertyResponse → Option (List ScoreData)) (hasKey : Bool)
    (target : PropertyResponse) (candidates : List PropertyResponse)
    (max_results : ℕ) : List ComparableProperty :=
  if candidates.isEmpty then []
  else
    let scored :=
      if hasKey then ai_score_candidates hav f ai target candidates
      else traditional_score_candidates hav f target candidates
    (sortComparables scored).take max_results

/-- The weight that `calculate_similarity` applies to a named factor of its
breakdown dict, read off the `SimilarityFactors` configuration. -/
def factor_weight (f : SimilarityFactors) : String → ℚ
  | "location" => f.location_weight
  | "size" => f.size_weight
  | "age" => f.age_weight
  | "zoning" => f.zoning_weight
  | "value" => f.value_weight
  | "sale_price" => f.sale_price_weight
  | _ => 0

/-! Concrete objects used by witnesses and counterexamples. -/

/-- A stand-in for the haversine computation (its value is irrelevant to every
claim). -/
def hav0 : ℚ → ℚ → ℚ → ℚ → ℚ := fun _ _ _ _ => 0

/-- The AI oracle in which every scoring call fails (raises or returns
malformed JSON). -/
def aiNone : List PropertyResponse → Option (List ScoreData) := fun _ => none

/-- A parcel with no populated field: every string empty, every optional
field absent. -/
def baseParcel : PropertyResponse :=
  { id := "", county_id := "", address := "", city := "", state := "" }

/-- A parcel carrying only a zoning code. -/
def zonedParcel (z : String) : PropertyResponse :=
  { baseParcel with zoning_code := some z }

/-- A parcel carrying only a year built. -/
def agedParcel (y : ℤ) : PropertyResponse :=
  { baseParcel with year_built := some y }

/-- A parcel whose assessed value is the (truthiness-falsy) number 0.0. -/
def zeroValueParcel : PropertyResponse :=
  { baseParcel with assessed_value := some 0 }

/-- A parcel carrying only an assessed value of 100. -/
def valuedA : PropertyResponse := { baseParcel with assessed_value := some 100 }

/-- A parcel carrying only an assessed value of 90. -/
def valuedB : PropertyResponse := { baseParcel with assessed_value := some 90 }

/-- A parcel whose recorded building area is the negative number -10. -/
def negAreaA : PropertyResponse := { baseParcel with building_area := some (-10) }

/-- A parcel whose recorded building area is the negative number -20. -/
def negAreaB : PropertyResponse := { baseParcel with building_area := some (-20) }

/-- A concrete target parcel: Chicago, 50000 sq ft. -/
def wTarget : PropertyResponse :=
  { baseParcel with id := "T", city := "Chicago", building_area := some 50000 }

/-- A concrete candidate parcel identical to `wTarget` except for its id. -/
def wCand : PropertyResponse :=
  { baseParcel with id := "A", city := "Chicago", building_area := some 50000 }

/-- The comparable that the deterministic path builds for `wTarget` against
`wCand`: location 1, size 1, the four remaining factors neutral at 1/2,
weighted similarity 27/40, same-city distance estimate 5, confidence 17/55. -/
def wComp : ComparableProperty :=
  { property := wCand
    similarity_score := 27/40
    distance_miles := 5
    similarity_factors :=
      [("location", 1), ("size", 1), ("age", 1/2), ("zoning", 1/2),
       ("value", 1/2), ("sale_price", 1/2)]
    confidence_score := 17/55 }

/-- An AI oracle that always answers with a single well-formed entry for
candidate id "A". -/
def aiW : List PropertyResponse → Option (List ScoreData) :=
  fun _ => some [{ id := "A", similarity_score := 9/10, confidence_score := 8/10 }]

/-- The comparable the AI path builds for `wTarget` against `wCand` from the
`aiW` response: AI similarity and confidence, locally computed distance and
five-factor breakdown. -/
def wCompAI : ComparableProperty :=
  { property := wCand
    similarity_score := 9/10
    distance_miles := 5
    similarity_factors :=
      [("location", 1), ("size", 1), ("age", 1/2), ("zoning", 1/2), ("value", 1/2)]
    confidence_score := 8/10 }

/-! Helper lemmas shared by the claim theorems. -/

/-- A truthy optional rational that is nonnegative is positive. -/
theorem pos_of_qTruthy {o : Option ℚ} (h : qTruthy o = true) (h0 : 0 ≤ o.getD 0) :
    0 < o.getD 0 := by
  cases o with
  | none => simp [qTruthy] at h
  | some a =>
      simp only [qTruthy, bne_iff_ne, ne_eq] at h
      simpa using lt_of_le_of_ne h0 (by simpa using Ne.symm h)

/-- C3: for every configuration and parcel pair, the overall similarity score
returned by `calculate_similarity` equals the sum, over the six entries of the
returned per-factor breakdown, of the factor score times the weight configured
for that factor in `SimilarityFactors`. -/
theorem calculate_similarity_weighted_sum (f : SimilarityFactors)
    (target candidate : PropertyResponse) :
    (calculate_similarity f target candidate).1 =
      ((calculate_similarity f target candidate).2.1.map
        (fun p => p.2 * factor_weight f p.1)).sum := by
  simp only [calculate_similarity, factor_weight, List.map_cons, List.map_nil,
    List.sum_cons, List.sum_nil]
  ring

/-- C4 (amended): for every parcel pair whose building areas, when present, are
nonnegative, each of the six factor scorers returns a value in [0, 1] (the
restriction is needed: negative recorded areas drive the size scorer outside
the interval, see the counterexample). -/
theorem factor_scorers_in_unit_interval (target candidate : PropertyResponse)
    (ht : 0 ≤ target.building_area.getD 0) (hc : 0 ≤ candidate.building_area.getD 0) :
    (0 ≤ calculate_location_similarity target candidate ∧
      calculate_location_similarity target candidate ≤ 1) ∧
    (0 ≤ calculate_size_similarity target candidate ∧
      calculate_size_similarity target candidate ≤ 1) ∧
    (0 ≤ calculate_age_similarity defaultFactors target candidate ∧
      calculate_age_similarity defaultFactors target candidate ≤ 1) ∧
    (0 ≤ calculate_zoning_similarity target candidate ∧
      calculate_zoning_similarity target candidate ≤ 1) ∧
    (0 ≤ calculate_value_similarity defaultFactors target candidate ∧
      calculate_value_similarity defaultFactors target candidate ≤ 1) ∧
    (0 ≤ calculate_sale_price_similarity target candidate ∧
      calculate_sale_price_similarity target candidate ≤ 1) := by
  refine ⟨?_, ?_, ?_, ?_, ?_, ?_⟩
  · unfold calculate_location_similarity
    split_ifs <;> norm_num
  · simp only [calculate_size_similarity]
    split_ifs with h1 h2 h3
    · norm_num
    · norm_num
    · push_neg at h1
      have hta := pos_of_qTruthy h1.1 ht
      have hca := pos_of_qTruthy h1.2 hc
      have hl : 0 < max (target.building_area.getD 0) (candidate.building_area.getD 0) :=
        lt_max_of_lt_left hta
      have hs : 0 < min (target.building_area.getD 0) (candidate.building_area.getD 0) :=
        lt_min hta hca
      have hub := div_le_one_of_le₀
        (min_le_max (a := target.building_area.getD 0) (b := candidate.building_area.getD 0)) hl.le
      have hlb := (div_pos hs hl).le
      exact ⟨hlb, hub⟩
    · push_neg at h1
      have hta := pos_of_qTruthy h1.1 ht
      have hca := pos_of_qTruthy h1.2 hc
      have hl : 0 < max (target.building_area.getD 0) (candidate.building_area.getD 0) :=
        lt_max_of_lt_left hta
      have hs : 0 < min (target.building_area.getD 0) (candidate.building_area.getD 0) :=
        lt_min hta hca
      have hub := div_le_one_of_le₀
        (min_le_max (a := target.building_area.getD 0) (b := candidate.building_area.getD 0)) hl.le
      have hlb := (div_pos hs hl).le
      constructor <;> nlinarith
  · simp only [calculate_age_similarity, defaultFactors]
    split_ifs with h1 h2
    · norm_num
    · have hd0 : (0:ℚ) ≤ ((|target.year_built.getD 0 - candidate.year_built.getD 0| : ℤ) : ℚ) := by
        exact_mod_cast abs_nonneg _
      have hdt : ((|target.year_built.getD 0 - candidate.year_built.getD 0| : ℤ) : ℚ) ≤ 10 := by
        exact_mod_cast h2
      constructor <;> · push_cast at hd0 hdt ⊢; linarith
    · have hd10 : (10:ℚ) < ((|target.year_built.getD 0 - candidate.year_built.getD 0| : ℤ) : ℚ) := by
        exact_mod_cast not_le.mp h2
      constructor
      · exact le_max_left 0 _
      · refine max_le (by norm_num) ?_
        push_cast at hd10 ⊢
        linarith
  · simp only [calculate_zoning_similarity]
    split_ifs <;> norm_num
  · simp only [calculate_value_similarity, defaultFactors]
    split_ifs with h1 h2 h3
    · norm_num
    · norm_num
    · norm_num
    · constructor
      · exact le_max_left 0 _
      · refine max_le (by norm_num) ?_
        rw [not_le] at h3
        linarith
  · simp only [calculate_sale_price_similarity]
    split_ifs with h1 h2 h3
    · norm_num
    · norm_num
    · norm_num
    · constructor
      · exact le_max_left 0 _
      · refine max_le (by norm_num) ?_
        rw [not_le] at h3
        linarith

/-- Witness for C4: the amended theorem applied to the all-empty parcel pair,
whose (absent) building areas satisfy the nonnegativity hypotheses. -/
theorem factor_scorers_in_unit_interval_witness :
    (0 ≤ calculate_location_similarity baseParcel baseParcel ∧
      calculate_location_similarity baseParcel baseParcel ≤ 1) ∧
    (0 ≤ calculate_size_similarity baseParcel baseParcel ∧
      calculate_size_similarity baseParcel baseParcel ≤ 1) ∧
    (0 ≤ calculate_age_similarity defaultFactors baseParcel baseParcel ∧
      calculate_age_similarity defaultFactors baseParcel baseParcel ≤ 1) ∧
    (0 ≤ calculate_zoning_similarity baseParcel baseParcel ∧
      calculate_zoning_similarity baseParcel baseParcel ≤ 1) ∧
    (0 ≤ calculate_value_similarity defaultFactors baseParcel baseParcel ∧
      calculate_value_similarity defaultFactors baseParcel baseParcel ≤ 1) ∧
    (0 ≤ calculate_sale_price_similarity baseParcel baseParcel ∧
      calculate_sale_price_similarity baseParcel baseParcel ≤ 1) :=
  factor_scorers_in_unit_interval baseParcel baseParcel (le_refl 0) (le_refl 0)

/-- Counterexample for C4 as frozen: on the parcel pair with recorded building
areas -10 and -20 the size scorer returns 2, outside [0, 1]. -/
theorem size_similarity_negative_area_cex :
    ¬ (calculate_size_similarity negAreaA negAreaB ≤ 1) := by
  have h : calculate_size_similarity negAreaA negAreaB = 2 := by
    norm_num [calculate_size_similarity, negAreaA, negAreaB, baseParcel, qTruthy,
      max_def, min_def]
  rw [h]; norm_num

/-- C5 (amended): the zoning scorer returns 1.0 on the pair ("M-1","M-1")
(exact match), 0.3 — not 0.8 — on ("M-1","I-2"), because "M-1" is not a member
of the fixed industrial-code set (which contains "M1", "I-2", ... but no
hyphenated M codes), and 0.3 on ("M-1","RESIDENTIAL"). -/
theorem zoning_similarity_examples :
    calculate_zoning_similarity (zonedParcel "M-1") (zonedParcel "M-1") = 1 ∧
    calculate_zoning_similarity (zonedParcel "M-1") (zonedParcel "I-2") = 3/10 ∧
    calculate_zoning_similarity (zonedParcel "M-1") (zonedParcel "RESIDENTIAL") = 3/10 := by
  refine ⟨rfl, rfl, rfl⟩

/-- Counterexample for C5 as frozen: on ("M-1","I-2") the zoning scorer does
not return 0.8. -/
theorem zoning_M1_I2_cex :
    calculate_zoning_similarity (zonedParcel "M-1") (zonedParcel "I-2") ≠ 8/10 := by
  intro h
  have h2 : calculate_zoning_similarity (zonedParcel "M-1") (zonedParcel "I-2") = 3/10 := rfl
  rw [h2] at h
  norm_num at h

/-- C6 (amended): for a parcel pair with no populated essential or optional
field and no quality score, the confidence estimator returns
0 × 0.6 + 0.5 × 0.4 = 0.2 (the pair completeness is 0, not 0.5); in general
confidence = 0.6 × pair-completeness + 0.4 × pair-quality, clamped above
at 1.0. -/
theorem confidence_score_formula :
    calculate_confidence_score baseParcel baseParcel = 1/5 ∧
    ∀ target candidate : PropertyResponse,
      calculate_confidence_score target candidate =
        min 1 ((calculate_data_completeness target + calculate_data_completeness candidate)
                 / 2 * (6/10) +
               (qualityOrHalf target.quality_score + qualityOrHalf candidate.quality_score)
                 / 2 * (4/10)) := by
  constructor
  · norm_num [calculate_confidence_score, calculate_data_completeness, baseParcel,
      qualityOrHalf, qTruthy, sTruthy, zTruthy, min_def]
  · intro target candidate
    rfl

/-- Counterexample for C6 as frozen: the all-empty pair yields confidence 0.2,
not the claimed 0.5×0.6+0.5×0.4 = 0.5. -/
theorem confidence_empty_pair_cex :
    calculate_confidence_score baseParcel baseParcel ≠ 1/2 := by
  have h : calculate_confidence_score baseParcel baseParcel = 1/5 := by
    norm_num [calculate_confidence_score, calculate_data_completeness, baseParcel,
      qualityOrHalf, qTruthy, sTruthy, zTruthy, min_def]
  rw [h]; norm_num

/-- C7: for parcels that both carry a (nonzero) year built under a positive
configured tolerance, the age scorer follows the two published decay formulas,
and at an age difference equal to the tolerance it returns exactly 0.5, so the
two branches agree at the boundary. -/
theorem age_similarity_branches (f : SimilarityFactors)
    (target candidate : PropertyResponse) (ty cy : ℤ)
    (hty : target.year_built = some ty) (hcy : candidate.year_built = some cy)
    (hty0 : ty ≠ 0) (hcy0 : cy ≠ 0) (htol : 0 < f.age_tolerance_years) :
    (|ty - cy| ≤ f.age_tolerance_years →
        calculate_age_similarity f target candidate =
          1 - ((|ty - cy| : ℤ) : ℚ) / ((f.age_tolerance_years : ℤ) : ℚ) * (1/2)) ∧
    (f.age_tolerance_years < |ty - cy| →
        calculate_age_similarity f target candidate =
          max 0 ((1:ℚ)/2 - (((|ty - cy| : ℤ) : ℚ) - ((f.age_tolerance_years : ℤ) : ℚ)) /
            (((f.age_tolerance_years : ℤ) : ℚ) * 2))) ∧
    (|ty - cy| = f.age_tolerance_years →
        calculate_age_similarity f target candidate = 1/2) := by
  have hguard : ¬ (¬ zTruthy (some ty) = true ∨ ¬ zTruthy (some cy) = true) := by
    simp [zTruthy, hty0, hcy0]
  have hbase : calculate_age_similarity f target candidate =
      if |ty - cy| ≤ f.age_tolerance_years then
        1 - ((|ty - cy| : ℤ) : ℚ) / ((f.age_tolerance_years : ℤ) : ℚ) * (1/2)
      else max 0 ((1:ℚ)/2 - (((|ty - cy| : ℤ) : ℚ) - ((f.age_tolerance_years : ℤ) : ℚ)) /
        (((f.age_tolerance_years : ℤ) : ℚ) * 2)) := by
    simp only [calculate_age_similarity, hty, hcy, Option.getD_some]
    rw [if_neg hguard]
  refine ⟨?_, ?_, ?_⟩
  · intro hd
    rw [hbase, if_pos hd]
  · intro hd
    rw [hbase, if_neg (not_le.mpr hd)]
  · intro hd
    rw [hbase, if_pos hd.le, hd]
    have hne : ((f.age_tolerance_years : ℤ) : ℚ) ≠ 0 := by
      exact_mod_cast htol.ne'
    rw [div_self hne]
    norm_num

/-- Witness for C7: the default tolerance is 10, and the pair of years 1990 and
2000 sits exactly at the boundary, where the score is 0.5. -/
theorem age_similarity_branches_witness :
    calculate_age_similarity defaultFactors (agedParcel 1990) (agedParcel 2000) = 1/2 :=
  (age_similarity_branches defaultFactors (agedParcel 1990) (agedParcel 2000)
    1990 2000 rfl rfl (by decide) (by decide) (by decide)).2.2 (by decide)

/-- C8: the size scorer is symmetric in its two parcels, and a parcel with a
present, nonzero building area scores 1.0 against itself. -/
theorem size_similarity_symm_and_id :
    (∀ target candidate : PropertyResponse,
        calculate_size_similarity target candidate =
          calculate_size_similarity candidate target) ∧
    (∀ (p : PropertyResponse) (a : ℚ), p.building_area = some a → a ≠ 0 →
        calculate_size_similarity p p = 1) := by
  constructor
  · intro t c
    simp only [calculate_size_similarity]
    by_cases h1 : qTruthy t.building_area = true <;>
      by_cases h2 : qTruthy c.building_area = true <;>
      simp [h1, h2, max_comm, min_comm]
  · intro p a ha h0
    simp only [calculate_size_similarity, ha, Option.getD_some, max_self, min_self]
    rw [if_neg (by simp [qTruthy, ha, h0]), if_neg h0, div_self h0]
    norm_num

/-- Witness for C8: symmetry at a concrete pair, and a self-comparison with
building area 50000 scoring 1. -/
theorem size_similarity_symm_and_id_witness :
    calculate_size_similarity negAreaA negAreaB =
      calculate_size_similarity negAreaB negAreaA ∧
    calculate_size_similarity wTarget wTarget = 1 :=
  ⟨size_similarity_symm_and_id.1 negAreaA negAreaB,
   size_similarity_symm_and_id.2 wTarget 50000 rfl (by norm_num)⟩

/-- C9 (amended): the assessed-value scorer returns 0.5 when either assessed
value is missing — where Python truthiness also treats a recorded value of 0 as
missing, so a pair whose larger value is 0 yields 0.5 and the source's
`larger == 0 → 0.0` branch is unreachable —, returns 1.0 when the
smaller/larger ratio is at least 1 − tolerance (default tolerance 0.3), and
otherwise returns `max 0 ratio`, which is never negative. -/
theorem value_similarity_characterization (target candidate : PropertyResponse) :
    ((¬ qTruthy target.assessed_value = true ∨ ¬ qTruthy candidate.assessed_value = true) →
        calculate_value_similarity defaultFactors target candidate = 1/2) ∧
    (∀ tv cv : ℚ, target.assessed_value = some tv → candidate.assessed_value = some cv →
        tv ≠ 0 → cv ≠ 0 →
        ((1 - (3:ℚ)/10 ≤ min tv cv / max tv cv →
            calculate_value_similarity defaultFactors target candidate = 1) ∧
         (min tv cv / max tv cv < 1 - (3:ℚ)/10 →
            calculate_value_similarity defaultFactors target candidate =
              max 0 (min tv cv / max tv cv)))) ∧
    0 ≤ calculate_value_similarity defaultFactors target candidate := by
  refine ⟨?_, ?_, ?_⟩
  · intro h
    simp only [calculate_value_similarity]
    rw [if_pos h]
  · intro tv cv htv hcv htv0 hcv0
    have hguard : ¬ (¬ qTruthy (some tv) = true ∨ ¬ qTruthy (some cv) = true) := by
      simp [qTruthy, htv0, hcv0]
    have hmax : max tv cv ≠ 0 := by
      intro h
      rcases max_eq_iff.mp h with ⟨h1, -⟩ | ⟨h1, -⟩
      · exact htv0 h1
      · exact hcv0 h1
    have hbase : calculate_value_similarity defaultFactors target candidate =
        if 1 - (3:ℚ)/10 ≤ min tv cv / max tv cv then 1
        else max 0 (min tv cv / max tv cv) := by
      simp only [calculate_value_similarity, htv, hcv, Option.getD_some, defaultFactors]
      rw [if_neg hguard, if_neg hmax]
    constructor
    · intro hr
      rw [hbase, if_pos hr]
    · intro hr
      rw [hbase, if_neg (not_le.mpr hr)]
  · simp only [calculate_value_similarity]
    split_ifs <;> norm_num

/-- Witness for C9: assessed values 100 and 90 give ratio 9/10, within the
default tolerance, so the scorer returns 1. -/
theorem value_similarity_characterization_witness :
    calculate_value_similarity defaultFactors valuedA valuedB = 1 :=
  ((value_similarity_characterization valuedA valuedB).2.1 100 90 rfl rfl
    (by norm_num) (by norm_num)).1 (by norm_num [min_def, max_def])

/-- Counterexample for C9 as frozen: when both assessed values are the
(non-missing) number 0 — the only way the larger of the two values can be 0 —
the scorer returns 0.5, not the claimed 0.0. -/
theorem value_similarity_zero_cex :
    calculate_value_similarity defaultFactors zeroValueParcel zeroValueParcel = 1/2 ∧
    (1:ℚ)/2 ≠ 0 := by
  constructor
  · rfl
  · norm_num

/-- Every comparable kept by the deterministic scorer has similarity above the
0.3 threshold. -/
theorem similarity_gt_of_mem_traditional {hav : ℚ → ℚ → ℚ → ℚ → ℚ}
    {f : SimilarityFactors} {target : PropertyResponse}
    {candidates : List PropertyResponse} {comp : ComparableProperty}
    (h : comp ∈ traditional_score_candidates hav f target candidates) :
    (3:ℚ)/10 < comp.similarity_score := by
  rcases List.mem_filterMap.mp h with ⟨c, -, hc⟩
  simp only [score_one_candidate] at hc
  by_cases h1 : c.id = target.id
  · rw [if_pos h1] at hc
    simp at hc
  · rw [if_neg h1] at hc
    split at hc
    · rename_i hgt
      injection hc with h2
      subst h2
      exact hgt
    · simp at hc

/-- Every comparable produced for one batch of the AI path — whether from a
well-formed AI response or from the per-batch deterministic fallback — has
similarity above the 0.3 threshold. -/
theorem similarity_gt_of_mem_ai_batch {hav : ℚ → ℚ → ℚ → ℚ → ℚ}
    {f : SimilarityFactors} {ai : List PropertyResponse → Option (List ScoreData)}
    {target : PropertyResponse} {batch : List PropertyResponse}
    {comp : ComparableProperty}
    (h : comp ∈ ai_process_batch hav f ai target batch) :
    (3:ℚ)/10 < comp.similarity_score := by
  unfold ai_process_batch at h
  rcases hai : ai batch with _ | scores
  · rw [hai] at h
    exact similarity_gt_of_mem_traditional h
  · rw [hai] at h
    rcases List.mem_filterMap.mp h with ⟨sd, -, hsd⟩
    rcases hfind : batch.find? (fun c => c.id == sd.id) with _ | cand
    · rw [hfind] at hsd
      simp at hsd
    · rw [hfind] at hsd
      simp only at hsd
      split at hsd
      · rename_i hgt
        injection hsd with h2
        subst h2
        exact hgt
      · simp at hsd

/-- The sort comparator is transitive. -/
theorem simGE_trans : ∀ a b c : ComparableProperty,
    simGE a b = true → simGE b c = true → simGE a c = true := by
  intro a b c hab hbc
  simp only [simGE, decide_eq_true_eq] at *
  exact le_trans hbc hab

/-- The sort comparator is total. -/
theorem simGE_total : ∀ a b : ComparableProperty, (simGE a b || simGE b a) = true := by
  intro a b
  simp only [simGE, Bool.or_eq_true, decide_eq_true_eq]
  exact le_total b.similarity_score a.similarity_score

/-- The sorted list is non-increasing in similarity score. -/
theorem sortComparables_pairwise (l : List ComparableProperty) :
    List.Pairwise (fun a b => b.similarity_score ≤ a.similarity_score)
      (sortComparables l) := by
  refine (List.sorted_mergeSort simGE_trans simGE_total l).imp ?_
  intro a b hab
  simpa [simGE, decide_eq_true_eq] using hab

/-- Sorting permutes, hence preserves, membership. -/
theorem mem_sortComparables {comp : ComparableProperty}
    {l : List ComparableProperty} : comp ∈ sortComparables l ↔ comp ∈ l :=
  List.mem_mergeSort

/-- C1: for every target parcel and candidate set (and any AI oracle,
credential state, haversine model and configuration), the list returned by
`find_comparables` contains no comparable with similarity score ≤ 0.3, is
sorted non-increasing by similarity score, and has length at most
`max_results` (whose source default is 10). -/
theorem find_comparables_spec (hav : ℚ → ℚ → ℚ → ℚ → ℚ) (f : SimilarityFactors)
    (ai : List PropertyResponse → Option (List ScoreData)) (hasKey : Bool)
    (target : PropertyResponse) (candidates : List PropertyResponse)
    (max_results : ℕ) :
    (∀ comp ∈ find_comparables hav f ai hasKey target candidates max_results,
        (3:ℚ)/10 < comp.similarity_score) ∧
    List.Pairwise (fun a b => b.similarity_score ≤ a.similarity_score)
      (find_comparables hav f ai hasKey target candidates max_results) ∧
    (find_comparables hav f ai hasKey target candidates max_results).length ≤
      max_results := by
  simp only [find_comparables]
  split
  · exact ⟨by simp, by simp, by simp⟩
  · refine ⟨?_, ?_, ?_⟩
    · intro comp hmem
      have h2 := mem_sortComparables.mp (List.mem_of_mem_take hmem)
      cases hasKey with
      | false =>
          rw [if_neg (by simp)] at h2
          exact similarity_gt_of_mem_traditional h2
      | true =>
          rw [if_pos rfl] at h2
          simp only [ai_score_candidates] at h2
          rcases List.mem_flatMap.mp h2 with ⟨batch, -, hb⟩
          exact similarity_gt_of_mem_ai_batch hb
    · exact List.Pairwise.sublist (List.take_sublist _ _) (sortComparables_pairwise _)
    · exact List.length_take_le _ _

/-- Batching a list by five and filter-mapping each batch is filter-mapping
the whole list. -/
theorem batchesOf5_flatMap_filterMap (g : PropertyResponse → Option ComparableProperty)
    (l : List PropertyResponse) :
    (batchesOf5 l).flatMap (fun b => b.filterMap g) = l.filterMap g := by
  induction l using batchesOf5.induct with
  | case1 => simp [batchesOf5]
  | case2 a rest ih =>
      simp only [batchesOf5, List.flatMap_cons]
      rw [ih, ← List.filterMap_append, List.cons_append, List.take_append_drop]

/-- C2: if every AI-scoring call fails (raises or returns malformed JSON),
`find_comparables` returns exactly the deterministic result: all candidates
scored by `traditional_score_candidates`, sorted descending and truncated to
`max_results` — whether or not an AI credential is configured. -/
theorem find_comparables_ai_failure (hav : ℚ → ℚ → ℚ → ℚ → ℚ)
    (f : SimilarityFactors) (ai : List PropertyResponse → Option (List ScoreData))
    (hfail : ∀ batch, ai batch = none) (hasKey : Bool)
    (target : PropertyResponse) (candidates : List PropertyResponse)
    (max_results : ℕ) :
    find_comparables hav f ai hasKey target candidates max_results =
      (sortComparables (traditional_score_candidates hav f target candidates)).take
        max_results := by
  have hbatch : ∀ batch, ai_process_batch hav f ai target batch =
      traditional_score_candidates hav f target batch := by
    intro b
    unfold ai_process_batch
    rw [hfail b]
  have hcand : ai_score_candidates hav f ai target candidates =
      traditional_score_candidates hav f target candidates := by
    unfold ai_score_candidates
    have hfun : ai_process_batch hav f ai target =
        fun b => List.filterMap (score_one_candidate hav f target) b :=
      funext fun b => hbatch b
    rw [hfun]
    exact batchesOf5_flatMap_filterMap _ candidates
  simp only [find_comparables]
  split
  · rename_i hc
    have : candidates = [] := List.isEmpty_iff.mp hc
    subst this
    simp [traditional_score_candidates, sortComparables]
  · cases hasKey with
    | false => rw [if_neg (by simp)]
    | true => rw [if_pos rfl, hcand]

/-- Witness for C2: with the always-failing oracle on a concrete nonempty
candidate list and a configured credential, the AI path output coincides with
the deterministic pipeline. -/
theorem find_comparables_ai_failure_witness :
    find_comparables hav0 defaultFactors aiNone true wTarget [wCand] 10 =
      (sortComparables (traditional_score_candidates hav0 defaultFactors wTarget
        [wCand])).take 10 :=
  find_comparables_ai_failure hav0 defaultFactors aiNone (fun _ => rfl) true
    wTarget [wCand] 10

/-- C10: the five-factor breakdown attached along the AI scoring path carries
exactly the keys location, size, age, zoning, value — never a "sale_price"
entry — while every comparable built by the deterministic scorer carries those
five keys plus "sale_price". -/
theorem similarity_factor_key_sets :
    (∀ (f : SimilarityFactors) (target candidate : PropertyResponse),
        (calculate_detailed_similarity_factors f target candidate).map Prod.fst =
          ["location", "size", "age", "zoning", "value"] ∧
        "sale_price" ∉ (calculate_detailed_similarity_factors f target candidate).map
          Prod.fst) ∧
    (∀ (hav : ℚ → ℚ → ℚ → ℚ → ℚ) (f : SimilarityFactors)
        (ai : List PropertyResponse → Option (List ScoreData))
        (target : PropertyResponse) (batch : List PropertyResponse)
        (scores : List ScoreData) (comp : ComparableProperty),
        ai batch = some scores →
        comp ∈ ai_process_batch hav f ai target batch →
        comp.similarity_factors.map Prod.fst =
          ["location", "size", "age", "zoning", "value"]) ∧
    (∀ (hav : ℚ → ℚ → ℚ → ℚ → ℚ) (f : SimilarityFactors)
        (target : PropertyResponse) (candidates : List PropertyResponse)
        (comp : ComparableProperty),
        comp ∈ traditional_score_candidates hav f target candidates →
        comp.similarity_factors.map Prod.fst =
          ["location", "size", "age", "zoning", "value", "sale_price"]) := by
  refine ⟨?_, ?_, ?_⟩
  · intro f target candidate
    refine ⟨rfl, ?_⟩
    intro hmem
    rw [show (calculate_detailed_similarity_factors f target candidate).map Prod.fst =
      ["location", "size", "age", "zoning", "value"] from rfl] at hmem
    simp at hmem
  · intro hav f ai target batch scores comp hai h
    unfold ai_process_batch at h
    rw [hai] at h
    rcases List.mem_filterMap.mp h with ⟨sd, -, hsd⟩
    rcases hfind : batch.find? (fun c => c.id == sd.id) with _ | cand
    · rw [hfind] at hsd
      simp at hsd
    · rw [hfind] at hsd
      simp only at hsd
      split at hsd
      · injection hsd with h2
        subst h2
        rfl
      · simp at hsd
  · intro hav f target candidates comp h
    rcases List.mem_filterMap.mp h with ⟨c, -, hc⟩
    simp only [score_one_candidate] at hc
    by_cases h1 : c.id = target.id
    · rw [if_pos h1] at hc
      simp at hc
    · rw [if_neg h1] at hc
      split at hc
      · injection hc with h2
        subst h2
        rfl
      · simp at hc

/-- Concrete run of the deterministic scorer on the witness pair: it keeps the
single candidate with similarity 27/40. -/
theorem traditional_wPair_eq :
    traditional_score_candidates hav0 defaultFactors wTarget [wCand] = [wComp] := by
  have hid : ¬ ("A" : String) = "T" := by decide
  have hchic : (("Chicago" : String) != "") = true := by decide
  have harea : (((50000:ℚ)) != 0) = true := by decide
  norm_num [traditional_score_candidates, score_one_candidate, calculate_similarity,
    calculate_location_similarity, calculate_size_similarity, calculate_age_similarity,
    calculate_zoning_similarity, calculate_value_similarity,
    calculate_sale_price_similarity, calculate_confidence_score,
    calculate_data_completeness, calculate_distance, qualityOrHalf, qTruthy, sTruthy,
    zTruthy, lowerChars, defaultFactors, wTarget, wCand, baseParcel, wComp,
    List.filterMap_cons, List.count_cons, List.count_nil, min_def, max_def,
    hid, hchic, harea]

/-- Concrete run of one AI batch on the witness pair with the `aiW` oracle:
the AI-approved candidate is kept with the AI similarity and confidence and the
locally computed five-factor breakdown. -/
theorem ai_batch_wPair_eq :
    ai_process_batch hav0 defaultFactors aiW wTarget [wCand] = [wCompAI] := by
  have hfound : (("A" : String) == "A") = true := by decide
  have harea : (((50000:ℚ)) != 0) = true := by decide
  norm_num [ai_process_batch, aiW, calculate_detailed_similarity_factors,
    calculate_location_similarity, calculate_size_similarity, calculate_age_similarity,
    calculate_zoning_similarity, calculate_value_similarity, calculate_distance,
    qTruthy, sTruthy, zTruthy, lowerChars, defaultFactors, wTarget, wCand, baseParcel,
    wCompAI, List.filterMap_cons, List.find?, min_def, max_def, hfound, harea]

/-- Concrete run of the full pipeline on the witness pair along the
deterministic path. -/
theorem find_wPair_eq :
    find_comparables hav0 defaultFactors aiNone false wTarget [wCand] 10 = [wComp] := by
  simp only [find_comparables, Bool.false_eq_true, if_false]
  rw [if_neg (by decide)]
  rw [traditional_wPair_eq]
  simp [sortComparables, List.mergeSort_singleton]

/-- Witness for C1: on a concrete nonempty candidate list the returned
comparable has similarity above 0.3 and the result respects the length bound. -/
theorem find_comparables_spec_witness :
    (3:ℚ)/10 < wComp.similarity_score ∧
    (find_comparables hav0 defaultFactors aiNone false wTarget [wCand] 10).length ≤ 10 :=
  ⟨(find_comparables_spec hav0 defaultFactors aiNone false wTarget [wCand] 10).1 wComp
      (by rw [find_wPair_eq]; exact List.mem_singleton.mpr rfl),
   (find_comparables_spec hav0 defaultFactors aiNone false wTarget [wCand] 10).2.2⟩

/-- Witness for C10: the AI-built comparable of the concrete batch run carries
the five keys without "sale_price"; the deterministically built comparable of
the concrete run carries the six keys with "sale_price". -/
theorem similarity_factor_key_sets_witness :
    wCompAI.similarity_factors.map Prod.fst =
      ["location", "size", "age", "zoning", "value"] ∧
    wComp.similarity_factors.map Prod.fst =
      ["location", "size", "age", "zoning", "value", "sale_price"] :=
  ⟨similarity_factor_key_sets.2.1 hav0 defaultFactors aiW wTarget [wCand] _ wCompAI rfl
      (by rw [ai_batch_wPair_eq]; exact List.mem_singleton.mpr rfl),
   similarity_factor_key_sets.2.2 hav0 defaultFactors wTarget [wCand] wComp
      (by rw [traditional_wPair_eq]; exact List.mem_singleton.mpr rfl)⟩

end PropertyAnalysis
